import Mathlib

/-!
Verification of the feedback classification-and-prioritization pipeline
(`src/agents/*.py`, `src/core/orchestrator.py`) as a shallow embedding.

Conventions of the embedding:
* Python `dict` records become the `Record` structure; a missing key is an
  `Option` field holding `none` and `dict.get(k, d)` becomes `Option.getD`.
* Python floats are embedded as rationals (`ℚ`).  Every numeric literal in
  the source configuration is exactly representable, and none of the proved
  properties depends on binary rounding of IEEE floats.
* The value stored under the `"text"` key may be any Python object; the
  agents call string methods on it, which raises for non-strings and is
  caught by the per-record `try/except` blocks.  We embed the dynamic value
  as `PyVal` (string or non-string) and fallible code as `Except String`.
* Regex-based text miners (`extract_os_info`, `extract_version`,
  `_extract_repro_steps`, `_extract_description`) and `json.dumps`
  serialization are pure `String`-valued helpers whose output never feeds
  back into any classification, priority or quality decision; they are
  abstracted as parameters (`TextMiners`) and the theorems hold for every
  choice of them.  `extract_device_info` is regex-free and embedded exactly.
-/

/- Batteries marks the arithmetic on `Rat` irreducible, which blocks
kernel evaluation of the embedded functions on concrete inputs (`decide`).
Restore reducibility: every proof still passes through the kernel, which
never consulted these attributes in the first place. -/
set_option allowUnsafeReducibility true

set_option maxRecDepth 16000

attribute [semireducible] Rat.add Rat.sub Rat.mul Rat.inv Rat.div
  Rat.ofScientific

/-- A dynamically typed Python value stored in a record field: either a
string or a non-string object (represented by an `Int` payload, enough to
exercise the `AttributeError`/`TypeError` paths of the source). -/
inductive PyVal where
  | str (s : String)
  | int (n : Int)
deriving DecidableEq, Repr

/-- The value of `record["metadata"].get("rating", "")` as the classifier
sees it: `absent` for a missing or falsy value (the `if rating:` guard),
`nonNumeric` for a truthy value on which `int()` raises `ValueError`,
`num r` for a truthy value parsing as the integer `r`. -/
inductive Rating where
  | absent
  | nonNumeric (s : String)
  | num (r : Int)
deriving DecidableEq, Repr

/-- `bug_details` dict (`BugAnalysisAgent._analyze_bug`); all fields are
optional so that the empty dict `{}` of the error path is representable. -/
structure BugDetails where
  device : Option String := none
  os : Option String := none
  app_version : Option String := none
  reproduction_steps : Option String := none
  severity : Option String := none
deriving DecidableEq, Repr

/-- `feature_details` dict (`FeatureExtractorAgent._analyze_feature`). -/
structure FeatureDetails where
  description : Option String := none
  theme : Option String := none
  demand_score : Option ℚ := none
  occurrences : Option Nat := none
deriving DecidableEq, Repr

/-- One normalized feedback record flowing through the pipeline.  The
`meta_device`/`meta_app_version` fields are `metadata.get("device", "")`
and `metadata.get("app_version", "")` as read by the bug analyzer. -/
structure Record where
  record_id : String := ""
  source_type : String := ""
  text : PyVal := PyVal.str ""
  rating : Rating := Rating.absent
  meta_device : String := ""
  meta_app_version : String := ""
  category : Option String := none
  confidence : Option ℚ := none
  reasoning : Option String := none
  priority : Option String := none
  bug_details : Option BugDetails := none
  feature_details : Option FeatureDetails := none
deriving DecidableEq, Repr

/-- Python `s.lower()` on a string: lowercase every character.  (The
library's `String.toLower` is extensionally the same map but is defined
through well-founded recursion, which the kernel cannot evaluate.) -/
def pyLowerStr (s : String) : String :=
  String.mk (s.data.map Char.toLower)

/-- Python `s.strip()`: drop leading and trailing whitespace. -/
def pyStrip (s : String) : String :=
  String.mk
    (((s.data.dropWhile Char.isWhitespace).reverse.dropWhile
      Char.isWhitespace).reverse)

/-- Python `text.split(".")[0]`: the prefix before the first `"."`
(`split` always returns at least one element). -/
def py_split_dot_head (s : String) : String :=
  String.mk (s.data.takeWhile (fun c => c != '.'))

/-- Python substring containment on character lists (`needle in hay`). -/
def isSubstr : List Char → List Char → Bool
  | needle, [] => needle.isEmpty
  | needle, c :: rest => needle.isPrefixOf (c :: rest) || isSubstr needle rest

/-- Python `needle in hay` for strings. -/
def strContains (hay needle : String) : Bool :=
  isSubstr needle.data hay.data

/-- Python `value.lower()` on a dynamic value: raises `AttributeError`
for a non-string. -/
def pyLower : PyVal → Except String String
  | PyVal.str s => Except.ok (pyLowerStr s)
  | PyVal.int _ => Except.error "int object has no attribute lower"

/-- Use of a dynamic value where a `str` is required (slicing, `.split`,
`str.join`): raises for a non-string. -/
def pyStr : PyVal → Except String String
  | PyVal.str s => Except.ok s
  | PyVal.int _ => Except.error "expected str, got int"

/-- Python `a or b` for strings (empty string is falsy). -/
def orFalsy (a b : String) : String := if a = "" then b else a

/-- `round(q, 3)` on a rational: round to the nearest thousandth.
(Python rounds exact half-thousandths to even; Mathlib `round` rounds them
up.  The two agree everywhere else, and no property below depends on an
exact half-thousandth.) -/
def round3 (q : ℚ) : ℚ := (round (q * 1000) : ℤ) / 1000

/-! ## Classifier configuration (`core/config.py`, `ClassificationConfig`) -/

/-- `ClassificationConfig.keyword_weights`, in source (dict insertion)
order. -/
def keyword_weights : List (String × List (String × ℚ)) := [
  ("Bug", [
    ("crash", 0.9), ("bug", 0.9), ("error", 0.85), ("broken", 0.85),
    ("not working", 0.8), ("fail", 0.8), ("freeze", 0.75), ("stuck", 0.7),
    ("glitch", 0.8), ("issue", 0.5), ("problem", 0.6), ("fix", 0.5),
    ("won\x27t load", 0.8), ("can\x27t open", 0.75), ("slow", 0.4),
    ("unresponsive", 0.7), ("black screen", 0.8), ("force close", 0.85),
    ("data loss", 0.9), ("lost my", 0.7), ("disappeared", 0.7),
    ("login fail", 0.8), ("sync", 0.5), ("update broke", 0.85)]),
  ("Feature Request", [
    ("add", 0.6), ("feature", 0.8), ("wish", 0.7), ("would be nice", 0.8),
    ("suggestion", 0.8), ("please include", 0.8), ("should have", 0.7),
    ("need", 0.5), ("want", 0.5), ("improve", 0.5), ("could you", 0.6),
    ("it would help", 0.75), ("missing", 0.4), ("request", 0.7),
    ("dark mode", 0.85), ("integration", 0.6), ("support for", 0.7),
    ("option to", 0.7), ("ability to", 0.7), ("allow", 0.5)]),
  ("Praise", [
    ("love", 0.8), ("great", 0.7), ("awesome", 0.8), ("excellent", 0.85),
    ("amazing", 0.85), ("best", 0.7), ("perfect", 0.8), ("fantastic", 0.85),
    ("wonderful", 0.8), ("thank", 0.6), ("good job", 0.8),
    ("well done", 0.8), ("helpful", 0.6), ("recommend", 0.7),
    ("five stars", 0.9), ("5 stars", 0.9), ("intuitive", 0.7),
    ("beautiful", 0.7), ("smooth", 0.6), ("impressed", 0.8)]),
  ("Complaint", [
    ("terrible", 0.85), ("worst", 0.85), ("hate", 0.8), ("awful", 0.85),
    ("horrible", 0.85), ("disappointed", 0.8), ("frustrating", 0.8),
    ("annoying", 0.7), ("waste", 0.7), ("useless", 0.8),
    ("poor", 0.6), ("bad", 0.6), ("unacceptable", 0.85),
    ("ridiculous", 0.7), ("overpriced", 0.7), ("scam", 0.8),
    ("regret", 0.75), ("misleading", 0.7), ("uninstall", 0.7),
    ("refund", 0.8), ("angry", 0.75), ("furious", 0.85)]),
  ("Spam", [
    ("click here", 0.9), ("free money", 0.95), ("buy now", 0.9),
    ("limited offer", 0.85), ("act now", 0.85), ("winner", 0.8),
    ("congratulations", 0.7), ("earn money", 0.9), ("discount code", 0.8),
    ("subscribe", 0.5), ("visit my", 0.85), ("check out my", 0.8),
    ("http://", 0.6), ("www.", 0.5), ("promo", 0.7),
    ("casino", 0.9), ("lottery", 0.9), ("viagra", 0.95)])]

/-- `ClassificationConfig.confidence_threshold`. -/
def confidence_threshold : ℚ := 0.6

/-! ## Classifier (`agents/classifier_agent.py`) -/

/-- Inner loop of `_classify_single`: sum of the weights of every keyword
found (case-insensitive substring) in the lowercased text. -/
def categoryScore (textLower : String) (kws : List (String × ℚ)) : ℚ :=
  kws.foldl (fun acc kw =>
    if strContains textLower (pyLowerStr kw.1) then acc + kw.2 else acc) 0

/-- Inner loop of `_classify_single`: keywords matched, in table order. -/
def categoryMatches (textLower : String) (kws : List (String × ℚ)) :
    List String :=
  kws.foldl (fun acc kw =>
    if strContains textLower (pyLowerStr kw.1) then acc ++ [kw.1] else acc) []

/-- The per-category score dict, in insertion order. -/
def base_scores (textLower : String) : List (String × ℚ) :=
  keyword_weights.map (fun ckw => (ckw.1, categoryScore textLower ckw.2))

/-- `scores[key] = scores.get(key, 0) + v`: update in place if the key is
present (it always is for the keys actually bumped), else append. -/
def bump (scores : List (String × ℚ)) (key : String) (v : ℚ) :
    List (String × ℚ) :=
  if scores.any (fun p => p.1 == key) then
    scores.map (fun p => if p.1 == key then (p.1, p.2 + v) else p)
  else scores ++ [(key, v)]

/-- The rating-boost block of `_classify_single`. -/
def applyBoost (scores : List (String × ℚ)) : Rating → List (String × ℚ)
  | Rating.absent => scores
  | Rating.nonNumeric _ => scores
  | Rating.num r =>
      if r ≥ 4 then bump scores "Praise" 0.5
      else if r ≤ 2 then bump (bump scores "Bug" 0.2) "Complaint" 0.3
      else scores

/-- Score dict after the optional rating boost. -/
def classifier_scores (textLower : String) (rating : Rating) :
    List (String × ℚ) :=
  applyBoost (base_scores textLower) rating

/-- Python `max(scores, key=scores.get)`: the first entry with the maximum
value (later entries replace the running maximum only when strictly
greater). -/
def argmaxFirst : List (String × ℚ) → Option (String × ℚ)
  | [] => none
  | p :: ps =>
      some (ps.foldl (fun best cur => if cur.2 > best.2 then cur else best) p)

/-- `sum(scores.values())`. -/
def sumScores (scores : List (String × ℚ)) : ℚ :=
  scores.foldl (fun acc p => acc + p.2) 0

/-- `ClassifierAgent._classify_single`.  `Except.error` models a raised
exception (the `text.lower()` call on a non-string). -/
def classify_single (r : Record) : Except String Record :=
  match pyLower r.text with
  | Except.error e => Except.error e
  | Except.ok text =>
    let scores := classifier_scores text r.rating
    -- `if not any(scores.values())`
    if scores.all (fun p => decide (p.2 = 0)) then
      Except.ok { r with category := some "Complaint",
                         confidence := some 0.3,
                         reasoning :=
                           some "No strong keyword matches; defaulting to Complaint" }
    else
      -- `total = sum(scores.values()) or 1.0`
      let s := sumScores scores
      let total := if s = 0 then 1 else s
      -- `scores` holds the five configured categories, so it is nonempty and
      -- Python's `max` does not raise; the `getD` default is never reached.
      let win := (argmaxFirst scores).getD ("", 0)
      let confidence := min (round3 (win.2 / total)) 1
      let top_matches :=
        (categoryMatches text
          ((keyword_weights.lookup win.1).getD [])).take 5
      -- numeric `:.2f` formatting of the score and total is abstracted
      let reasoning := "Matched keywords: " ++ toString top_matches ++
        "; score=" ++ toString win.2 ++ "/" ++ toString total
      Except.ok { r with category := some win.1,
                         confidence := some confidence,
                         reasoning := some reasoning }

/-- `ClassifierAgent.execute`: the append loop with its per-record
`try/except` (written as a `map`, which builds the same list). -/
def classifier_execute (records : List Record) : List Record :=
  records.map (fun r =>
    match classify_single r with
    | Except.ok r' => r'
    | Except.error e =>
        { r with category := some "Unknown",
                 confidence := some 0,
                 reasoning := some ("Classification error: " ++ e) })

/-! ## Priority configuration (`core/config.py`, `PriorityConfig`) -/

/-- `PriorityConfig.bug_severity_keywords`. -/
def bug_severity_keywords : List (String × List String) := [
  ("Critical", [
    "crash", "data loss", "lost my", "disappeared", "corrupt",
    "black screen", "force close", "bricked", "won\x27t start"]),
  ("High", [
    "login", "can\x27t access", "sync", "payment", "security",
    "authentication", "password", "account locked", "not loading"]),
  ("Medium", [
    "slow", "lag", "delay", "minor", "cosmetic", "alignment",
    "typo", "formatting", "color", "font"])]

/-- `PriorityConfig.feature_priority_thresholds`. -/
def feature_priority_thresholds : List (String × ℚ) :=
  [("High", 0.7), ("Medium", 0.4), ("Low", 0.0)]

/-! ## Abstracted regex text miners (see the header note) -/

/-- The regex-based helpers of `core/utils.py`,
`BugAnalysisAgent._extract_repro_steps`,
`FeatureExtractorAgent._extract_description`, plus the `json.dumps`
serialization used by the ticket creator.  They are pure string-to-string
text mining whose output feeds no decision; every theorem below holds for
an arbitrary choice of them. -/
structure TextMiners where
  extract_os_info : String → Option String
  extract_version : String → Option String
  extract_repro_steps : String → String
  extract_description : String → String
  dumps_metadata : Option BugDetails → Option FeatureDetails → String

/-- A concrete instantiation used by witnesses and counterexamples. -/
def defaultMiners : TextMiners where
  extract_os_info := fun _ => none
  extract_version := fun _ => none
  extract_repro_steps := fun _ => "No clear reproduction steps identified"
  extract_description := fun t => t.take 200
  dumps_metadata := fun _ _ => "\x7b\x7d"

/-! ## Bug analysis agent (`agents/bug_analysis_agent.py`) -/

/-- `core/utils.py` `extract_device_info` (regex-free, embedded exactly):
the devices found as case-insensitive substrings, joined with `", "`. -/
def extract_device_info (text : String) : Option String :=
  let devices := ["iPhone", "iPad", "Samsung", "Pixel", "Galaxy", "Android",
    "iOS", "Huawei", "OnePlus", "Xiaomi", "MacBook", "Windows",
    "Linux", "Chrome OS", "tablet", "phone"]
  let found := devices.filter (fun d =>
    strContains (pyLowerStr text) (pyLowerStr d))
  if found.isEmpty then none else some (String.intercalate ", " found)

/-- `keywords = self.severity_keywords.get(severity, [])` followed by the
inner `for kw in keywords: if kw.lower() in text_lower`. -/
def tier_hit (textLower : String) (severity : String) : Bool :=
  ((bug_severity_keywords.lookup severity).getD []).any
    (fun kw => strContains textLower (pyLowerStr kw))

/-- `BugAnalysisAgent._determine_severity`: the loop over the literal list
`["Critical", "High", "Medium"]` with early return, unrolled. -/
def determine_severity (text : String) : String :=
  let tl := pyLowerStr text
  if tier_hit tl "Critical" then "Critical"
  else if tier_hit tl "High" then "High"
  else if tier_hit tl "Medium" then "Medium"
  else "Medium"

/-- `BugAnalysisAgent._analyze_bug`.  The string methods inside the
extractors raise on a non-string text. -/
def analyze_bug (m : TextMiners) (r : Record) : Except String Record :=
  match pyStr r.text with
  | Except.error e => Except.error e
  | Except.ok text =>
  let device := orFalsy (orFalsy ((extract_device_info text).getD "")
    r.meta_device) "Unknown"
  let os_info := orFalsy ((m.extract_os_info text).getD "") "Unknown"
  let app_version := orFalsy (orFalsy ((m.extract_version text).getD "")
    r.meta_app_version) "Unknown"
  let steps := m.extract_repro_steps text
  let severity := determine_severity text
  let bd : BugDetails :=
    { device := some device, os := some os_info,
      app_version := some app_version, reproduction_steps := some steps,
      severity := some severity }
  Except.ok { r with bug_details := some bd, priority := some severity }

/-- `BugAnalysisAgent.execute`: enrich exactly the records with
`category == "Bug"`, in place; the `except` branch does
`record.setdefault("bug_details", {})` and sets priority `"Medium"`. -/
def bug_execute (m : TextMiners) (records : List Record) : List Record :=
  records.map (fun r =>
    if r.category == some "Bug" then
      match analyze_bug m r with
      | Except.ok r' => r'
      | Except.error _ =>
          { r with bug_details := some (r.bug_details.getD {}),
                   priority := some "Medium" }
    else r)

/-! ## Feature extractor agent (`agents/feature_extractor_agent.py`) -/

/-- `FEATURE_THEMES`, in source order. -/
def FEATURE_THEMES : List (String × List String) := [
  ("dark mode", ["dark mode", "night mode", "dark theme"]),
  ("offline mode", ["offline", "without internet", "no connection"]),
  ("integration", ["integration", "integrate", "api", "connect with"]),
  ("export", ["export", "download", "csv", "json", "pdf export"]),
  ("accessibility", ["accessibility", "screen reader", "contrast", "wcag"]),
  ("admin controls", ["admin", "role", "permission", "sso", "rbac"]),
  ("time tracking", ["time tracking", "timer", "pomodoro", "time spent"]),
  ("customization", ["customize", "custom", "widget", "layout", "theme"]),
  ("encryption", ["encryption", "encrypt", "end-to-end", "e2ee", "security"]),
  ("collaboration", ["collaboration", "team", "shared", "real-time"]),
  ("pricing", ["discount", "pricing", "educational", "bulk", "license"]),
  ("notifications", ["notification", "alert", "reminder"])]

/-- `Counter` increment: `counts[theme] += 1` (insertion order kept). -/
def counterAdd (counts : List (String × Nat)) (key : String) :
    List (String × Nat) :=
  if counts.any (fun p => p.1 == key) then
    counts.map (fun p => if p.1 == key then (p.1, p.2 + 1) else p)
  else counts ++ [(key, 1)]

/-- `FeatureExtractorAgent._count_themes`.  The `text.lower()` call is
outside any `try`, so a non-string text raises out of `execute`. -/
def count_themes_loop : List Record → List (String × Nat) →
    Except String (List (String × Nat))
  | [], counts => Except.ok counts
  | r :: rs, counts =>
      match pyLower r.text with
      | Except.error e => Except.error e
      | Except.ok text =>
          count_themes_loop rs (FEATURE_THEMES.foldl (fun cts tk =>
            if tk.2.any (fun kw => strContains text kw) then
              counterAdd cts tk.1
            else cts) counts)

/-- `FeatureExtractorAgent._count_themes` (see `count_themes_loop`). -/
def count_themes (records : List Record) :
    Except String (List (String × Nat)) :=
  count_themes_loop records []

/-- `max(theme_counts.values()) if theme_counts else 1`. -/
def counter_max (counts : List (String × Nat)) : Nat :=
  if counts.isEmpty then 1
  else (counts.map Prod.snd).foldl Nat.max 0

/-- `FeatureExtractorAgent._identify_theme`. -/
def identify_theme (text : String) : String :=
  (FEATURE_THEMES.findSome? (fun tk =>
    if tk.2.any (fun kw => strContains (pyLowerStr text) kw) then some tk.1
    else none)).getD ""

/-- `FeatureExtractorAgent._score_to_priority`: the loop over the literal
list `["High", "Medium", "Low"]` with `thresholds.get(level, 0)` and early
return, unrolled; `"Low"` is the final fallback. -/
def score_to_priority (demand_score : ℚ) : String :=
  if demand_score ≥ (feature_priority_thresholds.lookup "High").getD 0 then
    "High"
  else if demand_score ≥
      (feature_priority_thresholds.lookup "Medium").getD 0 then "Medium"
  else if demand_score ≥
      (feature_priority_thresholds.lookup "Low").getD 0 then "Low"
  else "Low"

/-- `FeatureExtractorAgent._analyze_feature`.  The regex search inside
`_extract_description` raises `TypeError` on a non-string text. -/
def analyze_feature (m : TextMiners) (theme_counts : List (String × Nat))
    (max_count : Nat) (r : Record) : Except String Record :=
  match pyStr r.text with
  | Except.error e => Except.error e
  | Except.ok text =>
  let description := m.extract_description text
  let theme := identify_theme text
  -- `count = theme_counts.get(theme, 1) if theme else 1`
  let count := if theme = "" then 1 else (theme_counts.lookup theme).getD 1
  -- `demand_score = round(count / max_count, 3) if max_count else 0.0`
  let demand_score :=
    if max_count = 0 then 0 else round3 ((count : ℚ) / (max_count : ℚ))
  let priority := score_to_priority demand_score
  let fd : FeatureDetails :=
    { description := some description,
      theme := some (orFalsy theme "other"),
      demand_score := some demand_score, occurrences := some count }
  Except.ok { r with feature_details := some fd, priority := some priority }

/-- `FeatureExtractorAgent.execute`: two passes over the records with
`category == "Feature Request"`; the second pass catches per-record
exceptions (`priority = "Medium"`, `feature_details = {}`), the first
(`_count_themes`) does not. -/
def feature_execute (m : TextMiners) (records : List Record) :
    Except String (List Record) :=
  match count_themes (records.filter (fun r =>
      r.category == some "Feature Request")) with
  | Except.error e => Except.error e
  | Except.ok theme_counts =>
      let max_count := counter_max theme_counts
      Except.ok (records.map (fun r =>
        if r.category == some "Feature Request" then
          match analyze_feature m theme_counts max_count r with
          | Except.ok r' => r'
          | Except.error _ =>
              { r with priority := some "Medium",
                       feature_details := some {} }
        else r))

/-! ## Orchestrator (`core/orchestrator.py`, `PipelineOrchestrator.run`) -/

/-- Step 5 of `run`: assign a default priority to one record lacking the
`"priority"` key. -/
def default_priority (r : Record) : Record :=
  match r.priority with
  | some _ => r
  | none =>
      let cat := r.category.getD ""
      if cat = "Praise" then { r with priority := some "Low" }
      else if cat = "Complaint" then { r with priority := some "High" }
      else if cat = "Spam" then { r with priority := some "Low" }
      else { r with priority := some "Medium" }

/-- The step-5 loop over all records. -/
def default_priority_pass (records : List Record) : List Record :=
  records.map default_priority

/-- Steps 2–5 of `PipelineOrchestrator.run`: classification, bug analysis,
feature extraction, default-priority fallback.  An uncaught exception in
`feature_execute` propagates. -/
def pipeline_records (m : TextMiners) (records : List Record) :
    Except String (List Record) :=
  match feature_execute m (bug_execute m (classifier_execute records)) with
  | Except.error e => Except.error e
  | Except.ok afterFeat => Except.ok (default_priority_pass afterFeat)

/-! ## Ticket creator agent (`agents/ticket_creator_agent.py`) -/

/-- A generated ticket (`TicketCreatorAgent._create_ticket`); the two
quality fields are attached later by the quality critic. -/
structure Ticket where
  ticket_id : String
  title : String
  description : String
  category : String
  priority : String
  source_id : String
  source_type : String
  confidence : ℚ
  extracted_metadata : String
  quality_issues : Option (List String) := none
  quality_passed : Option Bool := none
deriving DecidableEq, Repr

/-- `f"{index:04d}"`: decimal digits zero-padded to width 4. -/
def pad4 (n : Nat) : String :=
  let s := toString n
  (String.mk (List.replicate (4 - s.length) '0')) ++ s

/-- `core/utils.py` `generate_ticket_id`. -/
def generate_ticket_id (index : Nat) (category : String) : String :=
  let prefix_map : List (String × String) :=
    [("Bug", "BUG"), ("Feature Request", "FEAT"), ("Praise", "PRS"),
     ("Complaint", "CMP"), ("Spam", "SPM")]
  let pfx := (prefix_map.lookup category).getD "TKT"
  pfx ++ "-" ++ pad4 index

/-- Python `str.title()`: uppercase each character preceded by a
non-alphabetic one, lowercase the rest. -/
def pyTitle (s : String) : String :=
  String.mk (s.data.foldl (fun (acc : List Char × Bool) c =>
    (acc.1 ++ [if acc.2 then c.toLower else c.toUpper], c.isAlpha)
    ) ([], false)).1

/-- Truncate `text` to `n` characters and append `"..."` when longer
(`text[:n] + "..." if len(text) > n else text`). -/
def truncEllipsis (text : String) (n : Nat) : String :=
  if text.length > n then text.take n ++ "..." else text

/-- `TicketCreatorAgent._generate_title`.  The branches for `"Bug"`,
`"Complaint"` and the final default apply string methods to the text and
hence raise on a non-string; the other branches never touch the text. -/
def generate_title (r : Record) : Except String String :=
  let category := r.category.getD "Feedback"
  if category = "Bug" then
    match pyStr r.text with
    | Except.error e => Except.error e
    | Except.ok text =>
    let bd := r.bug_details.getD {}
    let severity := bd.severity.getD ""
    let first_sentence := pyStrip (py_split_dot_head text)
    let first_sentence :=
      if first_sentence.length > 80 then first_sentence.take 77 ++ "..."
      else first_sentence
    let pfx := if severity = "" then "" else "[" ++ severity ++ "] "
    Except.ok (pfx ++ first_sentence)
  else if category = "Feature Request" then
    let fd := r.feature_details.getD {}
    let theme := fd.theme.getD ""
    let desc := fd.description.getD ""
    if theme ≠ "" ∧ theme ≠ "other" then
      Except.ok ("Feature Request: " ++ pyTitle theme)
    else if desc ≠ "" then
      Except.ok ("Feature Request: " ++ truncEllipsis desc 70)
    else Except.ok "Feature Request: User suggestion"
  else if category = "Praise" then
    Except.ok "Positive Feedback: User satisfaction report"
  else if category = "Complaint" then
    match pyStr r.text with
    | Except.error e => Except.error e
    | Except.ok text =>
    let first_sentence := pyStrip (py_split_dot_head text)
    let first_sentence :=
      if first_sentence.length > 80 then first_sentence.take 77 ++ "..."
      else first_sentence
    Except.ok ("Complaint: " ++ first_sentence)
  else if category = "Spam" then
    Except.ok "Spam: Flagged content"
  else
    match pyStr r.text with
    | Except.error e => Except.error e
    | Except.ok text => Except.ok (category ++ ": " ++ text.take 60 ++ "...")

/-- `TicketCreatorAgent._generate_description`.  `"\n".join(parts)`
raises `TypeError` when the text is not a string.  (Numeric formatting of
the demand score inside the f-string is printed via `toString`.) -/
def generate_description (r : Record) : Except String String :=
  match pyStr r.text with
  | Except.error e => Except.error e
  | Except.ok text =>
  let parts := [text]
  let parts := match r.bug_details with
    | none => parts
    | some bd => parts ++
        ["\n--- Bug Details ---\nDevice: " ++ bd.device.getD "N/A" ++
         "\nOS: " ++ bd.os.getD "N/A" ++
         "\nApp Version: " ++ bd.app_version.getD "N/A" ++
         "\nSeverity: " ++ bd.severity.getD "N/A" ++
         "\nRepro Steps: " ++ bd.reproduction_steps.getD "N/A"]
  let parts := match r.feature_details with
    | none => parts
    | some fd => parts ++
        ["\n--- Feature Details ---\nTheme: " ++ fd.theme.getD "N/A" ++
         "\nDemand Score: " ++
           (fd.demand_score.map toString).getD "N/A" ++
         "\nOccurrences: " ++ (fd.occurrences.map toString).getD "N/A"]
  Except.ok (String.intercalate "\n" parts)

/-- `TicketCreatorAgent._create_ticket`. -/
def create_ticket (m : TextMiners) (r : Record) (index : Nat) :
    Except String Ticket :=
  let category := r.category.getD "Unknown"
  let tid := generate_ticket_id index category
  match generate_title r with
  | Except.error e => Except.error e
  | Except.ok title =>
  match generate_description r with
  | Except.error e => Except.error e
  | Except.ok description =>
  let priority := r.priority.getD "Medium"
  let extracted_metadata := m.dumps_metadata r.bug_details r.feature_details
  Except.ok { ticket_id := tid, title := title, description := description,
              category := category, priority := priority,
              source_id := r.record_id, source_type := r.source_type,
              confidence := r.confidence.getD 0,
              extracted_metadata := extracted_metadata }

/-- The `for idx, record in enumerate(records, start=1)` loop of
`TicketCreatorAgent.execute`: append the ticket on success, log and move
on when `_create_ticket` raises (the index still advances). -/
def ticket_loop (m : TextMiners) : List Record → Nat → List Ticket
  | [], _ => []
  | r :: rs, idx =>
      match create_ticket m r idx with
      | Except.ok t => t :: ticket_loop m rs (idx + 1)
      | Except.error _ => ticket_loop m rs (idx + 1)

/-- `TicketCreatorAgent.execute`. -/
def ticket_execute (m : TextMiners) (records : List Record) : List Ticket :=
  ticket_loop m records 1

/-- Python `enumerate(l, start)` (independent definition, used to state
what the ticket loop produces). -/
def pyEnumerate (start : Nat) : List α → List (Nat × α)
  | [] => []
  | a :: as_ => (start, a) :: pyEnumerate (start + 1) as_

/-! ## Quality critic agent (`agents/quality_critic_agent.py`) -/

/-- `EXPECTED_PRIORITIES` (Python sets; only membership is used). -/
def EXPECTED_PRIORITIES : List (String × List String) := [
  ("Bug", ["Critical", "High", "Medium"]),
  ("Feature Request", ["High", "Medium", "Low"]),
  ("Praise", ["Low"]),
  ("Complaint", ["High", "Medium"]),
  ("Spam", ["Low"])]

/-- `QualityCriticAgent._review_ticket`.  In the typed `Ticket` every
required field is present; the blank-string check applies to the string
fields, and `confidence` (a number) can never be flagged missing. -/
def review_ticket (threshold : ℚ) (t : Ticket) : List String :=
  -- 1. required fields: `val is None or (isinstance(val, str) and not val.strip())`
  let fieldBlank : List (String × Bool) := [
    ("ticket_id", pyStrip t.ticket_id == ""), ("title", pyStrip t.title == ""),
    ("description", pyStrip t.description == ""),
    ("category", pyStrip t.category == ""), ("priority", pyStrip t.priority == ""),
    ("source_id", pyStrip t.source_id == ""),
    ("source_type", pyStrip t.source_type == ""), ("confidence", false)]
  let issues := fieldBlank.foldl (fun acc p =>
    if p.2 then acc ++ ["Missing field: " ++ p.1] else acc) []
  -- 2. title clarity
  let issues := if t.title.length < 5 then issues ++ ["Title too short"]
    else issues
  let issues := if t.title.length > 200 then issues ++ ["Title too long"]
    else issues
  -- 3. confidence threshold (`:.2f` formatting printed via `toString`)
  let issues := if t.confidence < threshold then
      issues ++ ["Low confidence: " ++ toString t.confidence ++
        " < threshold " ++ toString threshold]
    else issues
  -- 4. priority consistency
  let expected := (EXPECTED_PRIORITIES.lookup t.category).getD []
  let issues := if expected ≠ [] ∧ t.priority ∉ expected then
      issues ++ ["Priority \x27" ++ t.priority ++
        "\x27 unexpected for category \x27" ++ t.category ++
        "\x27 (expected: " ++ toString expected ++ ")"]
    else issues
  -- 5. Spam should not have high priority
  let issues := if t.category = "Spam" ∧ t.priority ∈ ["Critical", "High"]
    then issues ++ ["Spam should not have high priority"] else issues
  -- 6. Praise should not have high priority
  let issues := if t.category = "Praise" ∧ t.priority ∈ ["Critical", "High"]
    then issues ++ ["Praise feedback should have Low priority"] else issues
  issues

/-- `QualityCriticAgent.execute`: attach `quality_issues` and
`quality_passed = (len(issues) == 0)` to every ticket. -/
def critic_execute (threshold : ℚ) (tickets : List Ticket) : List Ticket :=
  tickets.map (fun t =>
    let issues := review_ticket threshold t
    { t with quality_issues := some issues,
             quality_passed := some issues.isEmpty })

/-! ## Predicates and concrete inputs used by the claim theorems -/

/-- The lowercased text contains no keyword from any category's
keyword-weight table. -/
def no_keyword_match (s : String) : Bool :=
  keyword_weights.all (fun ckw =>
    ckw.2.all (fun kw => !(strContains (pyLowerStr s) (pyLowerStr kw.1))))

/-- The rating produces no score boost in `_classify_single`: it is
missing/falsy, fails `int()`, or parses to the integer 3 (the only integer
with neither `r >= 4` nor `r <= 2`). -/
def boost_free : Rating → Bool
  | Rating.num r => r == 3
  | _ => true

/-- A keyword-free record carrying a five-star rating (C1). -/
def c1_record : Record :=
  { record_id := "r1", source_type := "app_review",
    text := PyVal.str "zzz", rating := Rating.num 5 }

/-- A keyword-free record with no rating (C1 witness). -/
def c1w_record : Record := { record_id := "r2", text := PyVal.str "zzz" }

/-- A feature request matching no theme (C2). -/
def c2_record : Record :=
  { record_id := "f1", text := PyVal.str "zzz",
    category := some "Feature Request" }

/-- A record whose text is not a string, so that `_create_ticket`
raises (C3). -/
def c3_record : Record :=
  { record_id := "t1", text := PyVal.int 7, category := some "Unknown" }

/-- A plain record for the pipeline witness (C4). -/
def c4_record : Record := { record_id := "p1", text := PyVal.str "ok" }

/-- The record the pipeline produces from `c4_record` (C4 witness):
keyword-free text, so Complaint/0.3, then fallback priority High. -/
def c4_out : Record :=
  { c4_record with category := some "Complaint", confidence := some 0.3, reasoning := some "No strong keyword matches; defaulting to Complaint", priority := some "High" }

/-- A record that already carries a priority (C6). -/
def c6_set_record : Record :=
  { record_id := "d1", text := PyVal.str "b", category := some "Bug",
    priority := some "Critical" }

/-- A praise record lacking a priority (C6). -/
def c6_praise_record : Record :=
  { record_id := "d2", text := PyVal.str "p", category := some "Praise" }

/-- A record whose text is not a string, so classification raises (C7). -/
def c7_record : Record := { record_id := "e1", text := PyVal.int 7 }

/-- A keyword-free five-star record (C8 witness). -/
def c8_record : Record :=
  { record_id := "c1", source_type := "app_review",
    text := PyVal.str "zzz", rating := Rating.num 5 }

/-- A Spam ticket carrying High priority (C9). -/
def c9_ticket : Ticket :=
  { ticket_id := "SPM-0001", title := "Spam: Flagged content",
    description := "d", category := "Spam", priority := "High",
    source_id := "s", source_type := "app_review", confidence := 2,
    extracted_metadata := "x" }

/-- The reviewed form of `c9_ticket` (C9 witness): the two issues the
quality gate finds. -/
def c9_out : Ticket :=
  { c9_ticket with quality_issues := some ["Priority \x27High\x27 unexpected for category \x27Spam\x27 (expected: [Low])", "Spam should not have high priority"], quality_passed := some false }

/-- A feature request matching no theme (C10 witness). -/
def c10_record : Record :=
  { record_id := "g1", text := PyVal.str "zzz",
    category := some "Feature Request" }

/-- The enriched record the feature extractor produces from `c2_record`
alone in a batch (C2 witness). -/
def c2_out : Record :=
  { c2_record with feature_details := some { description := some "zzz", theme := some "other", demand_score := some 1, occurrences := some 1 }, priority := some "High" }

/-- The enriched record the feature extractor produces from `c10_record`
alone in a batch (C10 witness). -/
def c10_out : Record :=
  { c10_record with feature_details := some { description := some "zzz", theme := some "other", demand_score := some 1, occurrences := some 1 }, priority := some "High" }

/-- The fallback priority table exactly as the spec states it:
Praise→Low, Complaint→High, Spam→Low, anything else→Medium (used to state
C6 against the orchestrator's step-5 loop). -/
def spec_fallback_priority (cat : String) : String :=
  if cat = "Praise" then "Low"
  else if cat = "Complaint" then "High"
  else if cat = "Spam" then "Low"
  else "Medium"

/-! ## Shared lemmas -/

theorem categoryScore_foldl_init (t : String) (kws : List (String × ℚ))
    (a : ℚ) :
    kws.foldl (fun acc kw =>
      if strContains t (pyLowerStr kw.1) then acc + kw.2 else acc) a =
    a + categoryScore t kws := by
  induction kws generalizing a with
  | nil => simp [categoryScore]
  | cons kw kws ih =>
      simp only [categoryScore, List.foldl_cons]
      split
      · rw [ih (a + kw.2), ih (0 + kw.2)]
        ring
      · rw [ih a, ih 0]
        ring

theorem categoryScore_nonneg (t : String) (kws : List (String × ℚ))
    (h : ∀ kw ∈ kws, 0 ≤ kw.2) : 0 ≤ categoryScore t kws := by
  induction kws with
  | nil => simp [categoryScore]
  | cons kw kws ih =>
      have hkw : (0 : ℚ) ≤ kw.2 := h kw (by simp)
      have ht := ih (fun q hq => h q (by simp [hq]))
      simp only [categoryScore, List.foldl_cons]
      rw [categoryScore_foldl_init]
      split <;> [linarith; linarith]

theorem categoryScore_eq_zero (t : String) (kws : List (String × ℚ))
    (h : ∀ kw ∈ kws, strContains t (pyLowerStr kw.1) = false) :
    categoryScore t kws = 0 := by
  induction kws with
  | nil => rfl
  | cons kw kws ih =>
      simp only [categoryScore, List.foldl_cons, h kw (by simp),
        Bool.false_eq_true, if_false]
      exact ih (fun q hq => h q (by simp [hq]))

theorem sumScores_foldl_init (l : List (String × ℚ)) (a : ℚ) :
    l.foldl (fun acc p => acc + p.2) a = a + sumScores l := by
  induction l generalizing a with
  | nil => simp [sumScores]
  | cons p l ih =>
      simp only [sumScores, List.foldl_cons]
      rw [ih (a + p.2), ih (0 + p.2)]
      ring

theorem sumScores_cons (p : String × ℚ) (l : List (String × ℚ)) :
    sumScores (p :: l) = p.2 + sumScores l := by
  simp only [sumScores, List.foldl_cons]
  rw [sumScores_foldl_init l (0 + p.2)]
  ring_nf
  rfl

theorem sumScores_nonneg (l : List (String × ℚ))
    (h : ∀ p ∈ l, 0 ≤ p.2) : 0 ≤ sumScores l := by
  induction l with
  | nil => simp [sumScores]
  | cons p l ih =>
      rw [sumScores_cons]
      have := h p (by simp)
      have := ih (fun q hq => h q (by simp [hq]))
      linarith

theorem le_sumScores (l : List (String × ℚ)) (p : String × ℚ)
    (h : ∀ q ∈ l, 0 ≤ q.2) (hp : p ∈ l) : p.2 ≤ sumScores l := by
  induction l with
  | nil => cases hp
  | cons q l ih =>
      rw [sumScores_cons]
      rcases List.mem_cons.mp hp with h1 | h1
      · subst h1
        have := sumScores_nonneg l (fun x hx => h x (by simp [hx]))
        linarith
      · have := ih (fun x hx => h x (by simp [hx])) h1
        have := h q (by simp)
        linarith

theorem keyword_weights_nonneg :
    ∀ ckw ∈ keyword_weights, ∀ kw ∈ ckw.2, 0 ≤ kw.2 := by decide

theorem base_scores_nonneg (t : String) :
    ∀ p ∈ base_scores t, 0 ≤ p.2 := by
  intro p hp
  obtain ⟨ckw, hckw, rfl⟩ := List.mem_map.mp hp
  exact categoryScore_nonneg t ckw.2 (keyword_weights_nonneg ckw hckw)

theorem bump_nonneg (s : List (String × ℚ)) (k : String) (v : ℚ)
    (hs : ∀ p ∈ s, 0 ≤ p.2) (hv : 0 ≤ v) :
    ∀ p ∈ bump s k v, 0 ≤ p.2 := by
  intro p hp
  unfold bump at hp
  split at hp
  · obtain ⟨q, hq, rfl⟩ := List.mem_map.mp hp
    have := hs q hq
    split <;> simp <;> linarith
  · rcases List.mem_append.mp hp with h1 | h1
    · exact hs p h1
    · simp at h1
      subst h1
      exact hv

theorem classifier_scores_nonneg (t : String) (rt : Rating) :
    ∀ p ∈ classifier_scores t rt, 0 ≤ p.2 := by
  have hb := base_scores_nonneg t
  cases rt with
  | absent => exact hb
  | nonNumeric s => exact hb
  | num n =>
      simp only [classifier_scores, applyBoost]
      split
      · exact bump_nonneg _ _ _ hb (by norm_num)
      · split
        · exact bump_nonneg _ _ _
            (bump_nonneg _ _ _ hb (by norm_num)) (by norm_num)
        · exact hb

theorem classifier_scores_keys (t : String) (rt : Rating) :
    (classifier_scores t rt).map Prod.fst =
      ["Bug", "Feature Request", "Praise", "Complaint", "Spam"] := by
  cases rt with
  | absent => rfl
  | nonNumeric s => rfl
  | num n =>
      simp only [classifier_scores, applyBoost]
      split
      · rfl
      · split <;> rfl

theorem argmax_foldl_mem (ps : List (String × ℚ)) :
    ∀ p : String × ℚ,
      ps.foldl (fun best cur => if cur.2 > best.2 then cur else best) p ∈
        p :: ps := by
  induction ps with
  | nil => intro p; simp
  | cons q ps ih =>
      intro p
      simp only [List.foldl_cons]
      have h := ih (if q.2 > p.2 then q else p)
      rcases List.mem_cons.mp h with h1 | h1
      · rw [h1]
        split <;> simp
      · simp [h1]

theorem argmaxFirst_mem (l : List (String × ℚ)) (p : String × ℚ)
    (h : argmaxFirst l = some p) : p ∈ l := by
  cases l with
  | nil => cases h
  | cons q ps =>
      simp only [argmaxFirst, Option.some.injEq] at h
      subst h
      exact argmax_foldl_mem ps q

theorem no_keyword_match_spec (s : String) (hk : no_keyword_match s = true) :
    ∀ ckw ∈ keyword_weights, ∀ kw ∈ ckw.2,
      strContains (pyLowerStr s) (pyLowerStr kw.1) = false := by
  intro ckw hckw kw hkw
  have h1 := (List.all_eq_true.mp hk) ckw hckw
  have h2 := (List.all_eq_true.mp h1) kw hkw
  simpa using h2

theorem base_scores_all_zero (s : String) (hk : no_keyword_match s = true) :
    ∀ p ∈ base_scores (pyLowerStr s), p.2 = 0 := by
  intro p hp
  obtain ⟨ckw, hckw, rfl⟩ := List.mem_map.mp hp
  exact categoryScore_eq_zero _ _ (no_keyword_match_spec s hk ckw hckw)

theorem classifier_scores_no_boost (t : String) (rt : Rating)
    (hb : boost_free rt = true) : classifier_scores t rt = base_scores t := by
  cases rt with
  | absent => rfl
  | nonNumeric s => rfl
  | num n =>
      have : n = 3 := by simpa [boost_free] using hb
      subst this
      rfl

/-- C1 (counterexample): a record whose lowercased text contains no
keyword at all but whose metadata carries rating 5 is classified as
Praise with confidence 1.0, not as Complaint with confidence 0.3 — the
rating boost makes the Praise score nonzero, so the default branch is
skipped. -/
theorem C1_counterexample :
    no_keyword_match "zzz" = true ∧
    (classifier_execute [c1_record]).map (fun r => (r.category, r.confidence))
      = [(some "Praise", some 1)] := by decide

/-- C1 (amended): for every record whose lowercased text contains no
keyword from any category's keyword-weight table AND whose rating
produces no boost (absent/falsy, non-numeric, or exactly 3), the
Classifier assigns category = Complaint and confidence = 0.3. -/
theorem C1_amended (r : Record) (s : String) (hs : r.text = PyVal.str s)
    (hk : no_keyword_match s = true) (hb : boost_free r.rating = true) :
    classify_single r = Except.ok { r with
      category := some "Complaint", confidence := some 0.3,
      reasoning :=
        some "No strong keyword matches; defaulting to Complaint" } := by
  have hall : (classifier_scores (pyLowerStr s) r.rating).all
      (fun p => decide (p.2 = 0)) = true := by
    rw [classifier_scores_no_boost _ _ hb]
    exact List.all_eq_true.mpr (fun p hp => by
      simpa using base_scores_all_zero s hk p hp)
  simp only [classify_single, hs, pyLower, hall, if_true]

/-- C1 (witness): a concrete record with keyword-free text `"zzz"` and no
rating is classified Complaint/0.3. -/
theorem C1_witness :
    no_keyword_match "zzz" = true ∧ boost_free c1w_record.rating = true ∧
    classify_single c1w_record = Except.ok { c1w_record with
      category := some "Complaint", confidence := some 0.3,
      reasoning :=
        some "No strong keyword matches; defaulting to Complaint" } :=
  ⟨by decide, by decide, C1_amended c1w_record "zzz" rfl (by decide) (by decide)⟩

/-- C5: bug severity is resolved by the first keyword tier that hits, in
the order Critical, High, Medium: any Critical-tier keyword in the
lowercased text forces severity Critical regardless of the other tiers,
and with no keyword of any tier the severity defaults to Medium. -/
theorem C5_severity_tiers (text : String) :
    ((∃ kw ∈ (bug_severity_keywords.lookup "Critical").getD [],
        strContains (pyLowerStr text) (pyLowerStr kw) = true) →
      determine_severity text = "Critical") ∧
    ((∀ p ∈ bug_severity_keywords, ∀ kw ∈ p.2,
        strContains (pyLowerStr text) (pyLowerStr kw) = false) →
      determine_severity text = "Medium") := by
  constructor
  · intro h
    have hc : tier_hit (pyLowerStr text) "Critical" = true := by
      obtain ⟨kw, hkw, hs⟩ := h
      exact List.any_eq_true.mpr ⟨kw, hkw, hs⟩
    simp [determine_severity, hc]
  · intro h
    have hno : ∀ sev, tier_hit (pyLowerStr text) sev = false := by
      intro sev
      refine List.any_eq_false.mpr (fun kw hkw => ?_)
      rcases hl : bug_severity_keywords.lookup sev with _ | kws
      · rw [hl] at hkw
        cases hkw
      · rw [hl] at hkw
        have hmem : (sev, kws) ∈ bug_severity_keywords := by
          obtain ⟨l₁, l₂, heq, -⟩ := List.lookup_eq_some_iff.mp hl
          rw [heq]
          exact List.mem_append_right _ (List.mem_cons_self _ _)
        simp [h (sev, kws) hmem kw hkw]
    simp [determine_severity, hno]

/-- C5 (witness): a text containing the Critical keyword `"crash"` gets
severity Critical; a text with no severity keyword gets Medium. -/
theorem C5_witness :
    determine_severity "the app crash happened" = "Critical" ∧
    determine_severity "hello there" = "Medium" :=
  ⟨(C5_severity_tiers "the app crash happened").1
      ⟨"crash", by decide, by decide⟩,
   (C5_severity_tiers "hello there").2 (by decide)⟩

/-- C6: the default-priority pass returns every record that already has a
priority unchanged, and gives a record without one the priority
Praise→Low, Complaint→High, Spam→Low, otherwise Medium, touching no other
field. -/
theorem C6_default_fallback (records : List Record) (i : Nat) (r : Record)
    (hi : records[i]? = some r) :
    (∀ p, r.priority = some p →
      (default_priority_pass records)[i]? = some r) ∧
    (r.priority = none →
      (default_priority_pass records)[i]? = some
        { r with priority := some (spec_fallback_priority (r.category.getD "")) }) := by
  have hmap : (default_priority_pass records)[i]? =
      some (default_priority r) := by
    simp [default_priority_pass, hi]
  constructor
  · intro p hp
    rw [hmap]
    simp [default_priority, hp]
  · intro hp
    rw [hmap]
    simp only [default_priority, hp, spec_fallback_priority]
    split
    · simp_all
    · split
      · simp_all
      · split <;> simp_all

/-- C6 (witness): a record with priority Critical is untouched; a
priority-less Praise record gets Low. -/
theorem C6_witness :
    (default_priority_pass [c6_set_record, c6_praise_record])[0]? =
      some c6_set_record ∧
    (default_priority_pass [c6_set_record, c6_praise_record])[1]? =
      some { c6_praise_record with priority := some (spec_fallback_priority (c6_praise_record.category.getD "")) } :=
  ⟨(C6_default_fallback [c6_set_record, c6_praise_record] 0 c6_set_record
      rfl).1 "Critical" rfl,
   (C6_default_fallback [c6_set_record, c6_praise_record] 1 c6_praise_record
      rfl).2 rfl⟩

/-- C7: the Classifier's batch loop emits exactly one output record per
input record, and a record on which `_classify_single` raises comes out
with category Unknown and confidence 0.0 at its original position — no
record is lost, and the rest of the batch is processed. -/
theorem C7_classifier_error_isolation (records : List Record) :
    (classifier_execute records).length = records.length ∧
    ∀ (i : Nat) (r : Record) (e : String), records[i]? = some r →
      classify_single r = Except.error e →
      ∃ r' : Record, (classifier_execute records)[i]? = some r' ∧
        r'.category = some "Unknown" ∧ r'.confidence = some 0 := by
  constructor
  · simp [classifier_execute]
  · intro i r e hi herr
    refine ⟨{ r with category := some "Unknown", confidence := some 0, reasoning := some ("Classification error: " ++ e) }, ?_, rfl, rfl⟩
    simp [classifier_execute, List.getElem?_map, hi, herr]

/-- C7 (witness): a batch holding one record whose text is not a string
(classification raises) still yields one output record, with category
Unknown and confidence 0. -/
theorem C7_witness :
    (classifier_execute [c7_record]).length = [c7_record].length ∧
    ∃ r' : Record, (classifier_execute [c7_record])[0]? = some r' ∧
      r'.category = some "Unknown" ∧ r'.confidence = some 0 :=
  ⟨(C7_classifier_error_isolation [c7_record]).1,
   (C7_classifier_error_isolation [c7_record]).2 0 c7_record
      "int object has no attribute lower" rfl rfl⟩

theorem round3_nonneg (q : ℚ) (h : 0 ≤ q) : 0 ≤ round3 q := by
  unfold round3
  have h1 : (0 : ℤ) ≤ round (q * 1000) := by
    rw [round_eq]
    refine Int.le_floor.mpr ?_
    push_cast
    linarith
  have h2 : (0 : ℚ) ≤ (round (q * 1000) : ℤ) := by exact_mod_cast h1
  exact div_nonneg h2 (by norm_num)

theorem classify_single_ok_confidence (r r' : Record)
    (h : classify_single r = Except.ok r') :
    ∃ c : ℚ, r'.confidence = some c ∧ 0 ≤ c ∧ c ≤ 1 := by
  rcases htext : r.text with s | n
  · rw [classify_single, htext] at h
    simp only [pyLower] at h
    by_cases hall : (classifier_scores (pyLowerStr s) r.rating).all
        (fun p => decide (p.2 = 0)) = true
    · rw [if_pos hall] at h
      obtain rfl := (Except.ok.injEq _ _).mp h
      exact ⟨0.3, rfl, by norm_num, by norm_num⟩
    · rw [if_neg hall] at h
      obtain rfl := (Except.ok.injEq _ _).mp h
      refine ⟨_, rfl, ?_, min_le_right _ _⟩
      refine le_min ?_ (by norm_num)
      refine round3_nonneg _ (div_nonneg ?_ ?_)
      · rcases harg : argmaxFirst (classifier_scores (pyLowerStr s) r.rating)
            with _ | p
        · simp [harg]
        · simp only [harg, Option.getD_some]
          exact classifier_scores_nonneg _ _ p (argmaxFirst_mem _ p harg)
      · split
        · norm_num
        · exact sumScores_nonneg _ (classifier_scores_nonneg _ _)
  · rw [classify_single, htext] at h
    simp [pyLower] at h

/-- C8: every confidence the Classifier emits (keyword branch, default
branch, and the per-record error path) lies in [0.0, 1.0]; and in the
non-default branch the confidence equals the winning category's score
divided by the sum of all category scores, rounded to 3 decimals and
clamped to at most 1.0. -/
theorem C8_confidence_bounds :
    (∀ (records : List Record) (r' : Record),
      r' ∈ classifier_execute records →
      ∃ c : ℚ, r'.confidence = some c ∧ 0 ≤ c ∧ c ≤ 1) ∧
    (∀ (r : Record) (s : String), r.text = PyVal.str s →
      (classifier_scores (pyLowerStr s) r.rating).all
        (fun p => decide (p.2 = 0)) = false →
      ∃ r' : Record, classify_single r = Except.ok r' ∧
        r'.confidence = some (min (round3
          ((((argmaxFirst (classifier_scores (pyLowerStr s) r.rating)).getD
              ("", 0)).2) /
           sumScores (classifier_scores (pyLowerStr s) r.rating))) 1)) := by
  constructor
  · intro records r' hmem
    obtain ⟨r, hr, rfl⟩ := List.mem_map.mp hmem
    rcases hcs : classify_single r with e | r''
    · simp only [hcs]
      exact ⟨0, rfl, le_refl 0, by norm_num⟩
    · simp only [hcs]
      exact classify_single_ok_confidence r r'' hcs
  · intro r s hs hall
    have hpos : sumScores (classifier_scores (pyLowerStr s) r.rating) ≠ 0 := by
      obtain ⟨p, hp, hfp⟩ := List.all_eq_false.mp hall
      have hne : p.2 ≠ 0 := by simpa using hfp
      have h0 : 0 ≤ p.2 := classifier_scores_nonneg _ _ p hp
      have hle := le_sumScores _ p (classifier_scores_nonneg _ _) hp
      intro hzero
      rw [hzero] at hle
      exact hne (le_antisymm hle h0)
    rw [classify_single, hs]
    simp only [pyLower]
    rw [if_neg (by simp [hall])]
    refine ⟨_, rfl, ?_⟩
    rw [if_neg hpos]

/-- C8 (witness): the bounds hold for the concrete classified record, and
the non-default branch formula is realized on a keyword-free record whose
rating 5 boosts Praise to score 0.5 (confidence 0.5/0.5 = 1.0). -/
theorem C8_witness :
    (∃ c : ℚ, ((classifier_execute [c8_record]).headD
        c8_record).confidence = some c ∧ 0 ≤ c ∧ c ≤ 1) ∧
    (∃ r' : Record, classify_single c8_record = Except.ok r' ∧
      r'.confidence = some (min (round3
        ((((argmaxFirst (classifier_scores (pyLowerStr "zzz")
            c8_record.rating)).getD ("", 0)).2) /
         sumScores (classifier_scores (pyLowerStr "zzz")
           c8_record.rating))) 1)) :=
  ⟨C8_confidence_bounds.1 [c8_record] _ (by decide),
   C8_confidence_bounds.2 c8_record "zzz" rfl (by decide)⟩

theorem pyEnumerate_length {α : Type} :
    ∀ (l : List α) (s : Nat), (pyEnumerate s l).length = l.length := by
  intro l
  induction l with
  | nil => intro s; rfl
  | cons a as ih =>
      intro s
      simp [pyEnumerate, ih]

theorem ticket_loop_eq (m : TextMiners) :
    ∀ (rs : List Record) (idx : Nat),
      ticket_loop m rs idx = (pyEnumerate idx rs).filterMap
        (fun p => (create_ticket m p.2 p.1).toOption) := by
  intro rs
  induction rs with
  | nil => intro idx; rfl
  | cons r rs ih =>
      intro idx
      simp only [ticket_loop, pyEnumerate, List.filterMap_cons]
      rcases h : create_ticket m r idx with e | t
      · simp [h, Except.toOption, ih]
      · simp [h, Except.toOption, ih]

/-- C3 (counterexample): a record whose text field is not a string makes
`_create_ticket` raise; the `except` branch of `execute` only logs, so
the batch of one record yields zero tickets — the record is dropped, and
no safe-default ticket is emitted. -/
theorem C3_counterexample :
    create_ticket defaultMiners c3_record 1 =
      Except.error "expected str, got int" ∧
    ticket_execute defaultMiners [c3_record] = [] ∧
    (ticket_execute defaultMiners [c3_record]).length ≠
      [c3_record].length := by
  refine ⟨rfl, rfl, by decide⟩

/-- C3 (amended): any exception raised while creating a single ticket is
caught (the loop continues and later records still get tickets), but the
failing record's ticket is skipped rather than replaced by a default:
the output is exactly one ticket per record whose creation succeeds, in
order, so its length is at most the number of input records. -/
theorem C3_ticket_per_success (m : TextMiners) (records : List Record) :
    (ticket_execute m records).length ≤ records.length ∧
    ticket_execute m records = (pyEnumerate 1 records).filterMap
      (fun p => (create_ticket m p.2 p.1).toOption) := by
  have h := ticket_loop_eq m records 1
  constructor
  · rw [ticket_execute, h]
    calc ((pyEnumerate 1 records).filterMap
          (fun p => (create_ticket m p.2 p.1).toOption)).length
        ≤ (pyEnumerate 1 records).length := List.length_filterMap_le _ _
      _ = records.length := pyEnumerate_length records 1
  · exact h

theorem identify_theme_no_hit (s : String) (h : identify_theme s = "") :
    ∀ tk ∈ FEATURE_THEMES,
      tk.2.any (fun kw => strContains (pyLowerStr s) kw) = false := by
  intro tk htk
  by_contra hne
  have hany : tk.2.any (fun kw => strContains (pyLowerStr s) kw) = true :=
    Bool.of_not_eq_false hne
  rcases hfs : FEATURE_THEMES.findSome? (fun tk =>
      if tk.2.any (fun kw => strContains (pyLowerStr s) kw) then some tk.1
      else none) with _ | name
  · have := List.findSome?_eq_none_iff.mp hfs tk htk
    rw [hany] at this
    simp at this
  · have hname : name = "" := by
      rw [identify_theme, hfs] at h
      simpa using h
    obtain ⟨a, ha, hfa⟩ := List.exists_of_findSome?_eq_some hfs
    have : name = a.1 := by
      by_cases hc : a.2.any (fun kw => strContains (pyLowerStr s) kw) = true
      · rw [hc] at hfa
        simpa using hfa.symm
      · simp only [Bool.not_eq_true] at hc
        rw [hc] at hfa
        simp at hfa
    subst this
    have hpos : ∀ p ∈ FEATURE_THEMES, p.1 ≠ "" := by decide
    exact hpos a ha hname

theorem counter_foldl_no_hit (tl : String) :
    ∀ (l : List (String × List String)) (counts : List (String × Nat)),
      (∀ tk ∈ l, tk.2.any (fun kw => strContains tl kw) = false) →
      l.foldl (fun cts tk =>
        if tk.2.any (fun kw => strContains tl kw) then counterAdd cts tk.1
        else cts) counts = counts := by
  intro l
  induction l with
  | nil => intro counts _; rfl
  | cons tk l ih =>
      intro counts h
      simp only [List.foldl_cons, h tk (by simp), Bool.false_eq_true,
        if_false]
      exact ih counts (fun q hq => h q (by simp [hq]))

theorem count_themes_no_hit :
    ∀ (rs : List Record) (counts : List (String × Nat)),
      (∀ r ∈ rs, ∃ s, r.text = PyVal.str s ∧ identify_theme s = "") →
      count_themes_loop rs counts = Except.ok counts := by
  intro rs
  induction rs with
  | nil => intro counts _; rfl
  | cons r rs ih =>
      intro counts h
      obtain ⟨s, hs, hth⟩ := h r (by simp)
      rw [count_themes_loop, hs]
      simp only [pyLower]
      rw [counter_foldl_no_hit (pyLowerStr s) FEATURE_THEMES counts
        (identify_theme_no_hit s hth)]
      exact ih counts (fun q hq => h q (by simp [hq]))

theorem analyze_feature_ok_text (m : TextMiners) (tc : List (String × Nat))
    (maxc : Nat) (r r'' : Record)
    (h : analyze_feature m tc maxc r = Except.ok r'') :
    r''.text = r.text := by
  rcases hrt : r.text with s | n
  · rw [analyze_feature, hrt] at h
    simp only [pyStr] at h
    obtain rfl := (Except.ok.injEq _ _).mp h
    rfl
  · rw [analyze_feature, hrt] at h
    simp [pyStr] at h

theorem analyze_feature_unmatched (m : TextMiners) (tc : List (String × Nat))
    (maxc : Nat) (r : Record) (s : String) (hs : r.text = PyVal.str s)
    (hth : identify_theme s = "") :
    analyze_feature m tc maxc r = Except.ok { r with
      feature_details := some { description := some (m.extract_description s), theme := some "other", demand_score := some (if maxc = 0 then (0 : ℚ) else round3 (1 / (maxc : ℚ))), occurrences := some 1 },
      priority := some (score_to_priority
        (if maxc = 0 then (0 : ℚ) else round3 (1 / (maxc : ℚ)))) } := by
  rw [analyze_feature, hs]
  simp only [pyStr, hth, if_pos, orFalsy, Nat.cast_one, if_true]

/-- C2 (counterexample): a batch whose single feature-request record
matches no theme gives that record demand_score 1.0 (count 1 over batch
maximum 1), not 0.0. -/
theorem C2_counterexample :
    identify_theme "zzz" = "" ∧
    (feature_execute defaultMiners [c2_record]).toOption.map (fun l =>
      l.map (fun r => r.feature_details.bind FeatureDetails.demand_score)) =
      some [some 1] ∧ some (1 : ℚ) ≠ some (0 : ℚ) :=
  ⟨by decide, by decide, by decide⟩

/-- C2 (amended): a feature-request record whose text matches no theme is
scored with its own contribution count = 1: demand_score =
round(1 / max_count, 3) where max_count is the batch's maximum theme
count (1 when the whole batch matched nothing) — 0.0 does not occur in
general; the record also gets theme "other" and occurrences 1. -/
theorem C2_unmatched_demand (m : TextMiners) (records out : List Record)
    (tc : List (String × Nat))
    (hrun : feature_execute m records = Except.ok out)
    (htc : count_themes (records.filter
      (fun r => r.category == some "Feature Request")) = Except.ok tc) :
    ∀ r' ∈ out, r'.category = some "Feature Request" →
      (∃ s, r'.text = PyVal.str s ∧ identify_theme s = "") →
      ∃ fd : FeatureDetails, r'.feature_details = some fd ∧
        fd.demand_score = some (round3 (1 / (counter_max tc : ℚ))) ∧
        fd.theme = some "other" ∧ fd.occurrences = some 1 := by
  rw [feature_execute, htc] at hrun
  have hout := ((Except.ok.injEq _ _).mp hrun).symm
  intro r' hmem hcat hs
  rw [hout] at hmem
  obtain ⟨r, hr, rfl⟩ := List.mem_map.mp hmem
  by_cases hbeq : (r.category == some "Feature Request") = true
  · simp only [hbeq, if_true] at hcat hs ⊢
    rcases hres : analyze_feature m tc (counter_max tc) r with e | r''
    · simp only [hres] at hcat hs ⊢
      obtain ⟨s, hstext, hth⟩ := hs
      rw [analyze_feature, hstext] at hres
      simp [pyStr] at hres
    · simp only [hres] at hcat hs ⊢
      obtain ⟨s, hstext, hth⟩ := hs
      have htext : r.text = PyVal.str s := by
        rw [← analyze_feature_ok_text m tc (counter_max tc) r r'' hres]
        exact hstext
      have hok := analyze_feature_unmatched m tc (counter_max tc) r s
        htext hth
      obtain rfl := (Except.ok.injEq _ _).mp (hres.symm.trans hok)
      refine ⟨_, rfl, ?_, rfl, rfl⟩
      by_cases hmc : counter_max tc = 0
      · rw [if_pos hmc, hmc]
        norm_num [round3]
      · rw [if_neg hmc]
  · simp only [hbeq, if_false] at hcat
    rw [Bool.not_eq_true, beq_eq_false_iff_ne] at hbeq
    exact absurd hcat hbeq

/-- C2 (witness): the amended statement realized on a singleton batch
with unmatched text `"zzz"`: demand = round(1/1, 3) = 1.0. -/
theorem C2_witness :
    ∃ fd : FeatureDetails, c2_out.feature_details = some fd ∧
      fd.demand_score = some (round3
        (1 / (counter_max ([] : List (String × Nat)) : ℚ))) ∧
      fd.theme = some "other" ∧ fd.occurrences = some 1 :=
  C2_unmatched_demand defaultMiners [c2_record] [c2_out] []
    rfl rfl c2_out (by decide) (by decide)
    ⟨"zzz", rfl, by decide⟩

/-- C10: in a batch of feature-request records none of whose texts
matches any theme, the theme counter stays empty, the batch maximum
count defaults to 1, and every record comes out with theme "other",
demand_score 1.0 (its own count 1 over the maximum 1) and priority High
(1.0 ≥ the 0.7 High threshold). -/
theorem C10_all_unmatched_batch (m : TextMiners) (records out : List Record)
    (hcat : ∀ r ∈ records, r.category = some "Feature Request")
    (htext : ∀ r ∈ records, ∃ s, r.text = PyVal.str s ∧ identify_theme s = "")
    (hrun : feature_execute m records = Except.ok out) :
    ∀ r' ∈ out, ∃ fd : FeatureDetails, r'.feature_details = some fd ∧
      fd.theme = some "other" ∧ fd.demand_score = some 1 ∧
      fd.occurrences = some 1 ∧ r'.priority = some "High" := by
  have htc : count_themes (records.filter
      (fun r => r.category == some "Feature Request")) = Except.ok [] :=
    count_themes_no_hit _ [] (fun r hr =>
      htext r (List.mem_of_mem_filter hr))
  rw [feature_execute, htc] at hrun
  have hout := ((Except.ok.injEq _ _).mp hrun).symm
  intro r' hmem
  rw [hout] at hmem
  obtain ⟨r, hr, rfl⟩ := List.mem_map.mp hmem
  have hbeq : (r.category == some "Feature Request") = true := by
    simp [hcat r hr]
  simp only [hbeq, if_true]
  obtain ⟨s, hstext, hth⟩ := htext r hr
  have hok := analyze_feature_unmatched m [] (counter_max []) r s hstext hth
  rw [hok]
  have hmax : counter_max ([] : List (String × Nat)) = 1 := rfl
  rw [hmax]
  have hd : (if (1 : Nat) = 0 then (0 : ℚ) else round3 (1 / ((1 : Nat) : ℚ)))
      = 1 := by norm_num [round3]
  rw [hd]
  have hp : score_to_priority 1 = "High" := by decide
  rw [hp]
  exact ⟨_, rfl, rfl, rfl, rfl, rfl⟩

/-- C10 (witness): the singleton batch with unmatched feature text
`"zzz"` comes out with theme "other", demand 1.0 and priority High. -/
theorem C10_witness :
    ∃ fd : FeatureDetails, c10_out.feature_details = some fd ∧
      fd.theme = some "other" ∧ fd.demand_score = some 1 ∧
      fd.occurrences = some 1 ∧ c10_out.priority = some "High" :=
  C10_all_unmatched_batch defaultMiners [c10_record] [c10_out]
    (by decide) (fun r hr => ⟨"zzz", by rw [List.mem_singleton.mp hr]; rfl, by decide⟩) rfl
    c10_out (by decide)

theorem spam_issue_mem (thr : ℚ) (t : Ticket) (hc : t.category = "Spam")
    (hp : t.priority = "High") :
    "Spam should not have high priority" ∈ review_ticket thr t := by
  simp only [review_ticket, hc, hp]
  rw [if_neg (by decide)]
  rw [if_pos (by decide)]
  exact List.mem_append_right _ (List.mem_singleton_self _)

/-- C9: every reviewed ticket with category Spam and priority High gets a
non-empty quality-issue list containing "Spam should not have high
priority" and quality_passed = false. -/
theorem C9_spam_high_gate (threshold : ℚ) (tickets : List Ticket) :
    ∀ t' ∈ critic_execute threshold tickets,
      t'.category = "Spam" → t'.priority = "High" →
      ∃ issues : List String, t'.quality_issues = some issues ∧
        "Spam should not have high priority" ∈ issues ∧ issues ≠ [] ∧
        t'.quality_passed = some false := by
  intro t' hmem hc hp
  obtain ⟨t, ht, rfl⟩ := List.mem_map.mp hmem
  have hc' : t.category = "Spam" := hc
  have hp' : t.priority = "High" := hp
  have hin : "Spam should not have high priority" ∈
      review_ticket threshold t := spam_issue_mem threshold t hc' hp'
  have hne : review_ticket threshold t ≠ [] := List.ne_nil_of_mem hin
  refine ⟨review_ticket threshold t, rfl, hin, hne, ?_⟩
  show some (review_ticket threshold t).isEmpty = some false
  rcases hrev : review_ticket threshold t with _ | ⟨a, l⟩
  · exact absurd hrev hne
  · rfl

/-- C9 (witness): the concrete Spam/High ticket fails the gate with the
expected issue present and quality_passed = false. -/
theorem C9_witness :
    ∃ issues : List String, c9_out.quality_issues = some issues ∧
      "Spam should not have high priority" ∈ issues ∧ issues ≠ [] ∧
      c9_out.quality_passed = some false :=
  C9_spam_high_gate 0.6 [c9_ticket] c9_out (by decide) rfl rfl

theorem classify_single_ok_shape (r r' : Record)
    (h : classify_single r = Except.ok r') :
    r'.priority = r.priority ∧ ∃ c, r'.category = some c ∧
      c ∈ ["Bug", "Feature Request", "Praise", "Complaint", "Spam"] := by
  rcases htext : r.text with s | n
  · rw [classify_single, htext] at h
    simp only [pyLower] at h
    by_cases hall : (classifier_scores (pyLowerStr s) r.rating).all
        (fun p => decide (p.2 = 0)) = true
    · rw [if_pos hall] at h
      obtain rfl := (Except.ok.injEq _ _).mp h
      exact ⟨rfl, "Complaint", rfl, by decide⟩
    · rw [if_neg hall] at h
      obtain rfl := (Except.ok.injEq _ _).mp h
      refine ⟨rfl, _, rfl, ?_⟩
      rcases harg : argmaxFirst (classifier_scores (pyLowerStr s) r.rating)
          with _ | p
      · exfalso
        have hkeys := classifier_scores_keys (pyLowerStr s) r.rating
        cases hsc : classifier_scores (pyLowerStr s) r.rating with
        | nil => rw [hsc] at hkeys; simp at hkeys
        | cons q l => rw [hsc] at harg; simp [argmaxFirst] at harg
      · simp only [harg, Option.getD_some]
        have hmem := argmaxFirst_mem _ p harg
        have hin : p.1 ∈ (classifier_scores (pyLowerStr s)
            r.rating).map Prod.fst := List.mem_map_of_mem _ hmem
        rw [classifier_scores_keys] at hin
        exact hin
  · rw [classify_single, htext] at h
    simp [pyLower] at h

theorem classifier_execute_shape (records : List Record) :
    ∀ r' ∈ classifier_execute records,
      (∃ r ∈ records, r'.priority = r.priority) ∧
      ∃ c, r'.category = some c ∧
        c ∈ ["Bug", "Feature Request", "Praise", "Complaint", "Spam",
             "Unknown"] := by
  intro r' hmem
  obtain ⟨r, hr, rfl⟩ := List.mem_map.mp hmem
  rcases hcs : classify_single r with e | r''
  · simp only [hcs]
    exact ⟨⟨r, hr, rfl⟩, "Unknown", rfl, by decide⟩
  · simp only [hcs]
    obtain ⟨hpri, c, hcat, hc5⟩ := classify_single_ok_shape r r'' hcs
    refine ⟨⟨r, hr, hpri⟩, c, hcat, ?_⟩
    simp only [List.mem_cons, List.not_mem_nil, or_false] at hc5 ⊢
    tauto

theorem determine_severity_mem (text : String) :
    determine_severity text ∈ ["Critical", "High", "Medium"] := by
  simp only [determine_severity]
  split
  · decide
  · split
    · decide
    · split <;> decide

theorem bug_execute_shape (m : TextMiners) (rs : List Record) :
    ∀ r' ∈ bug_execute m rs, ∃ r ∈ rs, r'.category = r.category ∧
      r'.text = r.text ∧
      (r'.priority = r.priority ∨ ∃ p, r'.priority = some p ∧
        p ∈ ["Critical", "High", "Medium", "Low"]) := by
  intro r' hmem
  obtain ⟨r, hr, rfl⟩ := List.mem_map.mp hmem
  by_cases hb : (r.category == some "Bug") = true
  · simp only [hb, if_true]
    rcases hab : analyze_bug m r with e | r''
    · simp only [hab]
      exact ⟨r, hr, rfl, rfl, Or.inr ⟨"Medium", rfl, by decide⟩⟩
    · simp only [hab]
      rcases hrt : r.text with s | n
      · rw [analyze_bug, hrt] at hab
        simp only [pyStr] at hab
        obtain rfl := (Except.ok.injEq _ _).mp hab
        refine ⟨r, hr, rfl, ?_, Or.inr ⟨determine_severity s, rfl, ?_⟩⟩
        · exact hrt.symm
        · have := determine_severity_mem s
          simp only [List.mem_cons, List.not_mem_nil, or_false] at this ⊢
          tauto
      · rw [analyze_bug, hrt] at hab
        simp [pyStr] at hab
  · simp only [hb, if_false]
    exact ⟨r, hr, rfl, rfl, Or.inl rfl⟩

theorem score_to_priority_mem (d : ℚ) :
    score_to_priority d ∈ ["High", "Medium", "Low"] := by
  simp only [score_to_priority]
  split
  · decide
  · split
    · decide
    · split <;> decide

theorem feature_execute_shape (m : TextMiners) (rs out : List Record)
    (h : feature_execute m rs = Except.ok out) :
    ∀ r' ∈ out, ∃ r ∈ rs, r'.category = r.category ∧
      (r'.priority = r.priority ∨ ∃ p, r'.priority = some p ∧
        p ∈ ["Critical", "High", "Medium", "Low"]) := by
  rw [feature_execute] at h
  rcases htc : count_themes (rs.filter
      (fun r => r.category == some "Feature Request")) with e | tc
  · rw [htc] at h
    exact fun r' hmem => Except.noConfusion h
  · rw [htc] at h
    have hout := ((Except.ok.injEq _ _).mp h).symm
    intro r' hmem
    rw [hout] at hmem
    obtain ⟨r, hr, rfl⟩ := List.mem_map.mp hmem
    by_cases hb : (r.category == some "Feature Request") = true
    · simp only [hb, if_true]
      rcases haf : analyze_feature m tc (counter_max tc) r with e | r''
      · simp only [haf]
        exact ⟨r, hr, rfl, Or.inr ⟨"Medium", rfl, by decide⟩⟩
      · simp only [haf]
        rcases hrt : r.text with s | n
        · rw [analyze_feature, hrt] at haf
          simp only [pyStr] at haf
          obtain rfl := (Except.ok.injEq _ _).mp haf
          refine ⟨r, hr, rfl, Or.inr ⟨_, rfl, ?_⟩⟩
          have := score_to_priority_mem (if counter_max tc = 0 then 0
            else round3 (((if identify_theme s = "" then 1
              else (tc.lookup (identify_theme s)).getD 1 : Nat) : ℚ) /
              (counter_max tc : ℚ)))
          simp only [List.mem_cons, List.not_mem_nil, or_false] at this ⊢
          tauto
        · rw [analyze_feature, hrt] at haf
          simp [pyStr] at haf
    · simp only [hb, if_false]
      exact ⟨r, hr, rfl, Or.inl rfl⟩

theorem default_priority_shape (r : Record) :
    (default_priority r).category = r.category ∧
    ∃ p, (default_priority r).priority = some p ∧
      (r.priority = some p ∨ p ∈ ["Critical", "High", "Medium", "Low"]) := by
  rcases hpr : r.priority with _ | q
  · simp only [default_priority, hpr]
    split
    · exact ⟨rfl, "Low", rfl, Or.inr (by decide)⟩
    · split
      · exact ⟨rfl, "High", rfl, Or.inr (by decide)⟩
      · split
        · exact ⟨rfl, "Low", rfl, Or.inr (by decide)⟩
        · exact ⟨rfl, "Medium", rfl, Or.inr (by decide)⟩
  · simp only [default_priority, hpr]
    exact ⟨trivial, q, rfl, Or.inl rfl⟩

/-- C4: for a batch of pipeline inputs (records ingested without a
priority field), every record after classification, bug analysis,
feature extraction and the default-priority fallback carries a category
in {Bug, Feature Request, Praise, Complaint, Spam, Unknown} and a
priority in {Critical, High, Medium, Low}. -/
theorem C4_category_priority_sets (m : TextMiners)
    (records out : List Record)
    (hpri : ∀ r ∈ records, r.priority = none)
    (hrun : pipeline_records m records = Except.ok out) :
    ∀ r ∈ out, (∃ c, r.category = some c ∧
        c ∈ ["Bug", "Feature Request", "Praise", "Complaint", "Spam",
             "Unknown"]) ∧
      (∃ p, r.priority = some p ∧
        p ∈ ["Critical", "High", "Medium", "Low"]) := by
  rw [pipeline_records] at hrun
  rcases hfe : feature_execute m (bug_execute m (classifier_execute records))
      with e | afterFeat
  · rw [hfe] at hrun
    exact fun r hr => Except.noConfusion hrun
  · rw [hfe] at hrun
    have hout := ((Except.ok.injEq _ _).mp hrun).symm
    intro r hr
    rw [hout] at hr
    obtain ⟨r3, hr3, rfl⟩ := List.mem_map.mp hr
    obtain ⟨r2, hr2, hcat32, hpri3⟩ :=
      feature_execute_shape m _ afterFeat hfe r3 hr3
    obtain ⟨r1, hr1, hcat21, -, hpri2⟩ := bug_execute_shape m _ r2 hr2
    obtain ⟨⟨r0, hr0, hpri10⟩, c, hcat1, hc6⟩ :=
      classifier_execute_shape records r1 hr1
    obtain ⟨hcatd, p, hpd, hpor⟩ := default_priority_shape r3
    constructor
    · exact ⟨c, by rw [hcatd, hcat32, hcat21, hcat1], hc6⟩
    · refine ⟨p, hpd, ?_⟩
      rcases hpor with hcase | hmem4
      · rcases hpri3 with h3 | ⟨p3, hp3, hm3⟩
        · rcases hpri2 with h2 | ⟨p2, hp2, hm2⟩
          · rw [h3, h2, hpri10, hpri r0 hr0] at hcase
            cases hcase
          · rw [h3, hp2] at hcase
            obtain rfl := (Option.some.injEq _ _).mp hcase
            exact hm2
        · rw [hp3] at hcase
          obtain rfl := (Option.some.injEq _ _).mp hcase
          exact hm3
      · exact hmem4

/-- C4 (witness): a one-record batch with keyword-free text ends with
category Complaint and priority High, both in the required sets. -/
theorem C4_witness :
    (∃ c, c4_out.category = some c ∧
      c ∈ ["Bug", "Feature Request", "Praise", "Complaint", "Spam",
           "Unknown"]) ∧
    (∃ p, c4_out.priority = some p ∧
      p ∈ ["Critical", "High", "Medium", "Low"]) :=
  C4_category_priority_sets defaultMiners [c4_record] [c4_out]
    (by decide) rfl c4_out (by decide)
